import Mathlib

/-!
# Verification of the asynchronous media-job pipeline

Shallow embedding of the orchestrator routes, webhook handlers, client
pollers and color conversion of the subtitle application, with theorems
checking the specification's claims against the embedded code.

JavaScript numbers are modelled as `ℚ` (all arithmetic appearing in the
embedded code is exact decimal arithmetic well within double precision),
strings as `String` or `List Char` where character-level processing
matters, and fallible HTTP calls as explicit result values.
-/

namespace SubPoc

/-! ## Definitions

### Adaptive frame-count policy (components/timeline/useFilmstrip.ts) -/

/-- Embedding of calculateFrameCount from useFilmstrip.ts: number of
filmstrip frames as a function of the video duration in seconds. -/
def calculateFrameCount (durationSeconds : ℚ) : ℕ :=
  if durationSeconds ≤ 30 then 15
  else if durationSeconds ≤ 180 then 20
  else if durationSeconds ≤ 600 then 25
  else 30

/-! ### Polling configuration and backoff (components/timeline/useFilmstrip.ts) -/

/-- Shape of the POLLING_CONFIG constant of useFilmstrip.ts. -/
structure PollingConfigT where
  INITIAL_INTERVAL : ℚ
  MAX_INTERVAL : ℚ
  BACKOFF_MULTIPLIER : ℚ
  MAX_DURATION : ℚ
  MAX_RETRIES : ℕ
deriving DecidableEq

/-- Embedding of the POLLING_CONFIG constant of useFilmstrip.ts. -/
def POLLING_CONFIG : PollingConfigT :=
  { INITIAL_INTERVAL := 2000
    MAX_INTERVAL := 5000
    BACKOFF_MULTIPLIER := 12/10
    MAX_DURATION := 300000
    MAX_RETRIES := 90 }

/-- The sequence of scheduling intervals of the filmstrip poller:
`currentIntervalRef` starts at `INITIAL_INTERVAL` and after each
not-ready (404) response is replaced by
`Math.min(current * BACKOFF_MULTIPLIER, MAX_INTERVAL)`
(the 404 branch of `checkFilmstripReady`). -/
def pollInterval : ℕ → ℚ
  | 0 => POLLING_CONFIG.INITIAL_INTERVAL
  | n + 1 => min (pollInterval n * POLLING_CONFIG.BACKOFF_MULTIPLIER) POLLING_CONFIG.MAX_INTERVAL

/-! ### Hex → FFmpeg/ASS color conversion (app/api/videos/[id]/render/route.ts) -/

/-- JavaScript `Math.round` on the (nonnegative) values appearing in the
code: round half away from zero, which on nonnegative inputs is
`⌊q + 1/2⌋`. -/
def jsRound (q : ℚ) : ℤ := ⌊q + 1/2⌋

/-- Numeric value of one hexadecimal digit character, as `parseInt(·, 16)`
assigns it (digits, lowercase and uppercase letters). Characters outside
these ranges do not occur in the inputs considered. -/
def hexDigitVal (c : Char) : ℕ :=
  if '0' ≤ c ∧ c ≤ '9' then c.toNat - '0'.toNat
  else if 'a' ≤ c ∧ c ≤ 'f' then c.toNat - 'a'.toNat + 10
  else if 'A' ≤ c ∧ c ≤ 'F' then c.toNat - 'A'.toNat + 10
  else 0

/-- Value of `parseInt(s.substring(i, i+2), 16)` on a two-character slice. -/
def hexPairVal (c1 c2 : Char) : ℕ := 16 * hexDigitVal c1 + hexDigitVal c2

/-- Uppercase hexadecimal digit character for a value below 16 (one digit
of `n.toString(16).toUpperCase()`). -/
def hexChar (n : ℕ) : Char :=
  if n < 10 then Char.ofNat ('0'.toNat + n) else Char.ofNat ('A'.toNat + (n - 10))

/-- Encoding `n.toString(16).padStart(2, '0').toUpperCase()` for a byte
value `n < 256`: exactly two uppercase hex digits. -/
def hex2 (n : ℕ) : List Char := [hexChar (n / 16 % 16), hexChar (n % 16)]

/-- Model of the JavaScript `hex.replace('#', '')`: remove the first
occurrence of the hash character (string-argument `replace` replaces only
the first match). -/
def removeFirstHash : List Char → List Char
  | [] => []
  | c :: cs => if c = '#' then cs else c :: removeFirstHash cs

/-- Embedding of hexToFFmpegColor from render/route.ts (the identical
helper also appears in the worker-dispatch render route): convert
a `#RRGGBB` color plus an opacity into the ASS `&HAABBGGRR` encoding, with
`alpha = Math.round((1 - opacity) * 255)` and the channels reordered to
blue, green, red. Strings are modelled as `List Char`. -/
def hexToFFmpegColor (hex : List Char) (opacity : ℚ) : List Char :=
  let h := removeFirstHash hex
  let r := hexPairVal (h.getD 0 '0') (h.getD 1 '0')
  let g := hexPairVal (h.getD 2 '0') (h.getD 3 '0')
  let b := hexPairVal (h.getD 4 '0') (h.getD 5 '0')
  let a := (jsRound ((1 - opacity) * 255)).toNat
  '&' :: 'H' :: (hex2 a ++ hex2 b ++ hex2 g ++ hex2 r)

/-- A `#RRGGBB` hex color literal built from byte values, using uppercase
digits (the stored colors of the application, e.g. `#FFFF00`). -/
def mkHexColor (r g b : ℕ) : List Char := '#' :: (hex2 r ++ hex2 g ++ hex2 b)

/-! ### Timer rescheduling in the 404 branch of checkFilmstripReady -/

/-- An event on the set of live timers: `clearInterval` of a handle, or
`setInterval` registering a new handle with an interval. -/
inductive TimerEvent where
  | clear (id : ℕ)
  | set (id : ℕ) (interval : ℚ)
deriving DecidableEq

/-- Replay timer events over the list of live `(handle, interval)` timers. -/
def applyTimerEvents (live : List (ℕ × ℚ)) : List TimerEvent → List (ℕ × ℚ)
  | [] => live
  | TimerEvent.clear i :: es => applyTimerEvents (live.filter (fun t => t.1 ≠ i)) es
  | TimerEvent.set i iv :: es => applyTimerEvents (live ++ [(i, iv)]) es

/-- The timer events the 404 branch of `checkFilmstripReady` performs when a
timer `oldId` is live and the current interval is `cur`:
`clearInterval(pollingIntervalRef.current)` first, then `setInterval` at
`Math.min(cur * BACKOFF_MULTIPLIER, MAX_INTERVAL)`. -/
def notReadyReschedule (oldId newId : ℕ) (cur : ℚ) : List TimerEvent :=
  [TimerEvent.clear oldId,
   TimerEvent.set newId (min (cur * POLLING_CONFIG.BACKOFF_MULTIPLIER) POLLING_CONFIG.MAX_INTERVAL)]

/-! ### Filmstrip poller control flow (useFilmstrip.ts, checkFilmstripReady) -/

/-- Outcome of the status fetch inside `checkFilmstripReady`. -/
inductive FetchResp where
  | ok
  | notFound
  | otherStatus (code : ℕ)
  | netError
deriving DecidableEq

/-- The mutable refs of the filmstrip poller: `stopped` models whether
`pollingIntervalRef.current` has been cleared, `attempts` is
`pollingAttemptsRef`, `interval` is `currentIntervalRef`. -/
structure FsPoller where
  stopped : Bool
  attempts : ℕ
  interval : ℚ
deriving DecidableEq

/-- Embedding of stopPolling from useFilmstrip.ts: clear the timer and
reset the tracking refs. -/
def stopPolling (_s : FsPoller) : FsPoller :=
  { stopped := true, attempts := 0, interval := POLLING_CONFIG.INITIAL_INTERVAL }

/-- One invocation of `checkFilmstripReady`, given whether the component is
mounted, the wall-clock time elapsed since `pollingStartTimeRef`, and the
response the fetch would produce. Returns the new poller state and whether
a status fetch was actually issued. The guards run in source order:
unmounted check, global `MAX_DURATION` timeout, `MAX_RETRIES` cap, then the
fetch with its 200 / 404 / other-status / network-error branches. -/
def checkFilmstripReady (mounted : Bool) (elapsed : ℚ) (resp : FetchResp)
    (s : FsPoller) : FsPoller × Bool :=
  if !mounted then (stopPolling s, false)
  else if elapsed > POLLING_CONFIG.MAX_DURATION then (stopPolling s, false)
  else
    let a := s.attempts + 1
    if a > POLLING_CONFIG.MAX_RETRIES then (stopPolling { s with attempts := a }, false)
    else match resp with
      | FetchResp.ok => (stopPolling { s with attempts := a }, true)
      | FetchResp.notFound =>
          ({ s with attempts := a, interval := min (s.interval * POLLING_CONFIG.BACKOFF_MULTIPLIER) POLLING_CONFIG.MAX_INTERVAL }, true)
      | FetchResp.otherStatus _ => ({ s with attempts := a }, true)
      | FetchResp.netError => ({ s with attempts := a }, true)

/-! ### Editor status poller (app/editor/[id]/editor-client.tsx, startPolling) -/

/-- The terminal statuses at which the editor poller clears its interval. -/
def isTerminalStatus (st : String) : Bool :=
  st == "ready" || st == "completed" || st == "failed"

/-- Whether the editor poller's interval is still live before its `n`-th
tick, given the project status each earlier tick observed: `startPolling`
installs a plain `setInterval(..., 2000)` and the callback clears it only
after observing a terminal status. There is no elapsed-time or retry-count
guard in this poller. -/
def editorPollerActive (statuses : ℕ → String) : ℕ → Bool
  | 0 => true
  | n + 1 => editorPollerActive statuses n && !(isTerminalStatus (statuses n))

/-- Wall-clock time of the editor poller's `n`-th tick (in ms after
`startPolling`): the interval is a constant 2000 ms. -/
def editorTickTime (n : ℕ) : ℚ := 2000 * (n + 1)

/-! ### Data model (prisma VideoProject) -/

/-- One caption entry, the shape `{ id, start, end, text }` used by the
transcription webhook, the render dispatch and the exporters. -/
structure Subtitle where
  id : ℤ
  start : ℚ
  end_ : ℚ
  text : String
deriving DecidableEq

/-- Filmstrip metadata as delivered by the filmstrip webhook. -/
structure FilmstripMeta where
  frameCount : ℕ
  frameWidth : ℕ
  frameHeight : ℕ
  totalWidth : ℕ
  fileSize : ℕ
deriving DecidableEq

/-- The persisted VideoProject fields the pipeline reads and writes.
An empty `subtitles` list models both a missing and an empty caption track
(the code treats them alike: `!video.subtitles || length === 0`). -/
structure VideoProjectRec where
  id : String
  duration : ℚ
  status : String
  subtitles : List Subtitle
  outputUrl : Option String
  filmstripUrl : Option String
  filmstripMetadata : Option FilmstripMeta
deriving DecidableEq

/-- One field assignment inside a `prisma.videoProject.update({ data })`. -/
inductive DbField where
  | status (v : String)
  | subtitles (v : List Subtitle)
  | outputUrl (v : Option String)
  | filmstripUrl (v : Option String)
  | filmstripMetadata (v : Option FilmstripMeta)
deriving DecidableEq

/-- A `prisma.videoProject.update` call: target id and the fields set. -/
structure DbUpdate where
  id : String
  fields : List DbField
deriving DecidableEq

/-- Apply one field assignment: `update` overwrites the named column
wholesale (a JSON column like `subtitles` is replaced, never patched). -/
def applyField (v : VideoProjectRec) : DbField → VideoProjectRec
  | DbField.status st => { v with status := st }
  | DbField.subtitles s => { v with subtitles := s }
  | DbField.outputUrl u => { v with outputUrl := u }
  | DbField.filmstripUrl u => { v with filmstripUrl := u }
  | DbField.filmstripMetadata m => { v with filmstripMetadata := m }

/-- Apply a `prisma.videoProject.update` to a record (no-op on other ids). -/
def applyUpdate (v : VideoProjectRec) (u : DbUpdate) : VideoProjectRec :=
  if u.id = v.id then u.fields.foldl applyField v else v

/-! ### Webhook handlers (app/api/webhooks/...) -/

/-- Payload of the transcription webhook:
`{ videoId, subtitles, status, error }`. -/
structure TranscriptionPayload where
  videoId : String
  subtitles : List Subtitle
  status : Option String
  error : Option String
deriving DecidableEq

/-- Payload of the render-complete webhook:
`{ videoId, outputUrl, status, error }`. -/
structure RenderPayload where
  videoId : String
  outputUrl : Option String
  status : Option String
  error : Option String
deriving DecidableEq

/-- Payload of the filmstrip-complete webhook:
`{ videoId, filmstripUrl, metadata, status, error }`. -/
structure FilmstripPayload where
  videoId : String
  filmstripUrl : Option String
  metadata : Option FilmstripMeta
  status : Option String
  error : Option String
deriving DecidableEq

/-- Handler of POST /api/webhooks/transcription: on a truthy `error` field,
a single update setting status `failed`; otherwise an update storing the
payload caption list wholesale and setting status `ready`. Returns the
update calls issued. -/
def transcriptionWebhookPOST (p : TranscriptionPayload) : List DbUpdate :=
  if p.error.isSome then [⟨p.videoId, [DbField.status "failed"]⟩]
  else [⟨p.videoId, [DbField.subtitles p.subtitles, DbField.status "ready"]⟩]

/-- Handler of POST /api/webhooks/render-complete: on a truthy `error`
field, a single update setting status `failed`; otherwise an update
storing `outputUrl` and setting status `completed`. -/
def renderWebhookPOST (p : RenderPayload) : List DbUpdate :=
  if p.error.isSome then [⟨p.videoId, [DbField.status "failed"]⟩]
  else [⟨p.videoId, [DbField.outputUrl p.outputUrl, DbField.status "completed"]⟩]

/-- Handler of POST /api/webhooks/filmstrip-complete: on status
`completed`, store `filmstripUrl` and `filmstripMetadata` (no status
change); on status `failed`, log only and issue no update, answering 500;
any other status answers 400 with no update. Returns the updates and the
HTTP response code. -/
def filmstripWebhookPOST (p : FilmstripPayload) : List DbUpdate × ℕ :=
  if p.status = some "completed" then
    ([⟨p.videoId, [DbField.filmstripUrl p.filmstripUrl, DbField.filmstripMetadata p.metadata]⟩], 200)
  else if p.status = some "failed" then ([], 500)
  else ([], 400)

/-! ### Render dispatch (POST handler of the worker-dispatch render route) -/

/-- Result of the `fetch(workerUrl + "/render", ...)` call: an HTTP
response with a status code, or a network error (rejected promise). -/
inductive WorkerFetchResult where
  | http (code : ℕ)
  | netError
deriving DecidableEq

/-- Model of the `Response.ok` flag of `fetch`: status in the 2xx range. -/
def respOk (code : ℕ) : Bool := 200 ≤ code && code < 300

/-- Observable actions of the render-dispatch request handler: a
`prisma.videoProject.update({ data: { status } })` or the single dispatch
`fetch` to the Worker. -/
inductive RenderEvent where
  | dbWrite (status : String)
  | dispatch
deriving DecidableEq

/-- The POST handler of the render dispatch route, as the ordered list of
its observable events plus the HTTP response code. Control flow of the
source: authentication, ownership lookup, empty-caption check, update to
status `rendering`, worker-configuration check, the single `fetch`; a
thrown error (unconfigured worker, network failure, or non-2xx response)
lands in the catch block, which updates status to `failed` and answers
500. -/
def renderPOST (authed : Bool) (video : Option VideoProjectRec)
    (workerConfigured : Bool) (res : WorkerFetchResult) : List RenderEvent × ℕ :=
  if !authed then ([], 401)
  else match video with
  | none => ([], 404)
  | some v =>
    if v.subtitles.length = 0 then ([], 400)
    else if !workerConfigured then
      ([RenderEvent.dbWrite "rendering", RenderEvent.dbWrite "failed"], 500)
    else match res with
      | WorkerFetchResult.http code =>
          if respOk code then
            ([RenderEvent.dbWrite "rendering", RenderEvent.dispatch], 200)
          else
            ([RenderEvent.dbWrite "rendering", RenderEvent.dispatch,
              RenderEvent.dbWrite "failed"], 500)
      | WorkerFetchResult.netError =>
          ([RenderEvent.dbWrite "rendering", RenderEvent.dispatch,
            RenderEvent.dbWrite "failed"], 500)

/-! ### Burn-in style builder (render route, force_style construction) -/

/-- The style fields the burn-in color/mode logic consumes (after the merge
with `defaultStyle`, every field is present; `backgroundOpacity` is the
numeric case of the code's `typeof ... === 'number'` guard). -/
structure SubtitleStyleRec where
  color : List Char
  backgroundColor : List Char
  backgroundOpacity : ℚ
  outlineColor : List Char
  outlineWidth : ℚ
deriving DecidableEq

/-- The three force_style slots the mode switch fills. -/
structure StyleChannels where
  outlineColour : List Char
  backColour : List Char
  borderStyle : ℕ
deriving DecidableEq

/-- The mode switch of the render route:
`borderStyle = backgroundOpacity > 0 ? 3 : 1`; in box mode (3) the
converted background color (with the background opacity applied) goes in
`OutlineColour` and the outline color in `BackColour`; in outline mode (1)
the outline color goes in `OutlineColour` and the background color (with
its opacity) in `BackColour`. -/
def renderStyleChannels (s : SubtitleStyleRec) : StyleChannels :=
  let borderStyle : ℕ := if s.backgroundOpacity > 0 then 3 else 1
  if borderStyle = 3 then
    { outlineColour := hexToFFmpegColor s.backgroundColor s.backgroundOpacity
      backColour := hexToFFmpegColor s.outlineColor 1
      borderStyle := 3 }
  else
    { outlineColour := hexToFFmpegColor s.outlineColor 1
      backColour := hexToFFmpegColor s.backgroundColor s.backgroundOpacity
      borderStyle := 1 }

/-! ### Dispatch authentication (orchestrator headers, worker verify_secret) -/

/-- Headers of the render dispatch `fetch` (worker-dispatch render route):
content type plus the bearer credential `Bearer <WORKER_SECRET>` in the
Authorization header. -/
def renderDispatchHeaders (secret : List Char) : List (String × List Char) :=
  [("Content-Type", "application/json".toList),
   ("Authorization", ('B' :: 'e' :: 'a' :: 'r' :: 'e' :: 'r' :: ' ' :: secret))]

/-- Headers of the editor-triggered filmstrip generation dispatch
(POST /api/videos/[id]/filmstrip/generate): content type plus the bearer
credential in the Authorization header. -/
def filmstripGenerateDispatchHeaders (secret : List Char) : List (String × List Char) :=
  [("Content-Type", "application/json".toList),
   ("Authorization", ('B' :: 'e' :: 'a' :: 'r' :: 'e' :: 'r' :: ' ' :: secret))]

/-- Headers of the upload-time filmstrip pre-trigger `fetch`
(POST /api/videos/upload): only the content type — no Authorization header
appears in the source. -/
def uploadFilmstripDispatchHeaders : List (String × List Char) :=
  [("Content-Type", "application/json".toList)]

/-- Look up a request header by name. -/
def getHeader (hs : List (String × List Char)) (k : String) : Option (List Char) :=
  (hs.find? (fun h => h.1 == k)).map (fun h => h.2)

/-- The separator/leading credential scheme `"Bearer "` the worker's check
uses. -/
def bearerSep : List Char := ['B', 'e', 'a', 'r', 'e', 'r', ' ']

/-- Model of the worker's `authorization.startswith("Bearer ")`. -/
def startsWithBearer : List Char → Bool
  | 'B' :: 'e' :: 'a' :: 'r' :: 'e' :: 'r' :: ' ' :: _ => true
  | _ => false

/-- Model of Python's `s.split("Bearer ")`, fuel-driven over the
characters: each occurrence of the separator ends the current piece. -/
def splitBearerGo : ℕ → List Char → List Char → List (List Char)
  | 0, acc, _ => [acc.reverse]
  | fuel + 1, acc, xs =>
    if startsWithBearer xs then acc.reverse :: splitBearerGo fuel [] (xs.drop 7)
    else match xs with
      | [] => [acc.reverse]
      | c :: rest => splitBearerGo fuel (c :: acc) rest

/-- The worker's `authorization.split("Bearer ")`, with enough fuel to
consume the whole string. -/
def pySplitBearer (xs : List Char) : List (List Char) :=
  splitBearerGo (xs.length + 1) [] xs

/-- A string with no occurrence of the separator (guarantees the split has
exactly the two pieces the worker's index `[1]` expects). -/
def noBearerInside : List Char → Bool
  | [] => true
  | c :: cs => !(startsWithBearer (c :: cs)) && noBearerInside cs

/-- Outcome of the worker's verify_secret dependency: pass, or an HTTP 401
with a detail string. -/
inductive AuthResult where
  | ok
  | error (code : ℕ) (detail : String)
deriving DecidableEq

/-- Embedding of the worker's verify_secret: reject a missing header,
reject a header that does not start with the bearer scheme, reject a token
(`authorization.split("Bearer ")[1]`) different from the shared secret. -/
def verify_secret (authorization : Option (List Char)) (worker_secret : List Char) :
    AuthResult :=
  match authorization with
  | none => AuthResult.error 401 "Missing Authorization header"
  | some a =>
    if !(startsWithBearer a) then AuthResult.error 401 "Invalid Authorization header format"
    else if ((pySplitBearer a).getD 1 []) ≠ worker_secret then
      AuthResult.error 401 "Invalid token"
    else AuthResult.ok

/-! ### Upload / filmstrip-generate duration handling -/

/-- Embedding of getVideoDuration from lib/upload.ts: the duration probe
(currently a stub returning 60 seconds for every video). -/
def getVideoDuration : ℚ := 60

/-- What the upload handler does with a detected duration: the record is
created with `duration: duration / 60` (comment: convert to minutes), and
the upload-time filmstrip pre-trigger body carries `duration: duration`
(comment: send in seconds). -/
structure UploadDurations where
  persistedDuration : ℚ
  dispatchDuration : ℚ
deriving DecidableEq

/-- The POST handler of /api/videos/upload, restricted to its duration
handling. -/
def uploadPOSTDurations (detected : ℚ) : UploadDurations :=
  { persistedDuration := detected / 60, dispatchDuration := detected }

/-- The POST handler of /api/videos/[id]/filmstrip/generate forwards the
persisted `video.duration` unchanged as the dispatch `duration`. -/
def generateDispatchDuration (persistedDuration : ℚ) : ℚ := persistedDuration

/-! ## Helper lemmas -/

theorem pollInterval_nonneg (n : ℕ) : 0 ≤ pollInterval n := by
  induction n with
  | zero => norm_num [pollInterval, POLLING_CONFIG]
  | succ n ih =>
    simp only [pollInterval, le_min_iff]
    constructor
    · have : (0 : ℚ) ≤ POLLING_CONFIG.BACKOFF_MULTIPLIER := by norm_num [POLLING_CONFIG]
      exact mul_nonneg ih this
    · norm_num [POLLING_CONFIG]

theorem pollInterval_le_max (n : ℕ) : pollInterval n ≤ POLLING_CONFIG.MAX_INTERVAL := by
  cases n with
  | zero => norm_num [pollInterval, POLLING_CONFIG]
  | succ n => simp [pollInterval]

theorem pollInterval_mono (n : ℕ) : pollInterval n ≤ pollInterval (n + 1) := by
  have h0 := pollInterval_nonneg n
  have h1 := pollInterval_le_max n
  simp only [pollInterval, le_min_iff]
  constructor
  · have hk : (1 : ℚ) ≤ POLLING_CONFIG.BACKOFF_MULTIPLIER := by norm_num [POLLING_CONFIG]
    calc pollInterval n = pollInterval n * 1 := by ring
    _ ≤ pollInterval n * POLLING_CONFIG.BACKOFF_MULTIPLIER := by
        exact mul_le_mul_of_nonneg_left hk h0
  · simpa [POLLING_CONFIG] using h1

theorem hexDigitVal_hexChar (d : ℕ) (hd : d < 16) : hexDigitVal (hexChar d) = d := by
  interval_cases d <;> decide

theorem hexPairVal_hex2 (n : ℕ) (hn : n < 256) :
    hexPairVal (hexChar (n / 16 % 16)) (hexChar (n % 16)) = n := by
  have h1 : n / 16 < 16 := by omega
  have h2 : n % 16 < 16 := by omega
  rw [hexPairVal, Nat.mod_eq_of_lt h1, hexDigitVal_hexChar _ h1, hexDigitVal_hexChar _ h2]
  omega

theorem editorPollerActive_const (st : String) (hst : isTerminalStatus st = false)
    (n : ℕ) : editorPollerActive (fun _ => st) n = true := by
  induction n with
  | zero => rfl
  | succ n ih => simp [editorPollerActive, ih, hst]

theorem splitBearerGo_no_sep (t : List Char) (ht : noBearerInside t = true) :
    ∀ (fuel : ℕ) (acc : List Char), t.length < fuel →
      splitBearerGo fuel acc t = [acc.reverse ++ t] := by
  induction t with
  | nil =>
    intro fuel acc hf
    match fuel, hf with
    | fuel + 1, _ => simp [splitBearerGo, startsWithBearer]
  | cons c cs ih =>
    intro fuel acc hf
    simp only [noBearerInside, Bool.and_eq_true, Bool.not_eq_true'] at ht
    match fuel, hf with
    | fuel + 1, hf =>
      have hlen : cs.length < fuel := by
        simp only [List.length_cons] at hf; omega
      simp only [splitBearerGo, ht.1, Bool.false_eq_true, if_false]
      rw [ih ht.2 fuel (c :: acc) hlen]
      simp

theorem pySplitBearer_bearer_append (t : List Char) (ht : noBearerInside t = true) :
    pySplitBearer (bearerSep ++ t) = [[], t] := by
  have hsw : startsWithBearer (bearerSep ++ t) = true := rfl
  have hdrop : (bearerSep ++ t).drop 7 = t := rfl
  have hlen : (bearerSep ++ t).length = 7 + t.length := by
    simp only [bearerSep, List.length_append, List.length_cons, List.length_nil]
  rw [pySplitBearer, hlen]
  rw [show (7 + t.length + 1) = (7 + t.length) + 1 from rfl]
  simp only [splitBearerGo, hsw, if_true, hdrop]
  rw [splitBearerGo_no_sep t ht (7 + t.length) [] (by omega)]
  simp

/-! ## Claim theorems -/

/-- C1. For a render of a video with a non-empty caption track (worker
configured): the first event is the status update to `rendering`; the
dispatch fetch happens exactly once (no retry); on a non-2xx response or a
network error the very same request appends the status update to `failed`
and answers 500; on a 2xx response no `failed` write occurs. -/
theorem renderDispatch_spec (v : VideoProjectRec) (res : WorkerFetchResult)
    (hsubs : v.subtitles.length ≠ 0) :
    (renderPOST true (some v) true res).1.head? = some (RenderEvent.dbWrite "rendering")
    ∧ (renderPOST true (some v) true res).1.count RenderEvent.dispatch = 1
    ∧ (∀ code, res = WorkerFetchResult.http code → respOk code = false →
        renderPOST true (some v) true res =
          ([RenderEvent.dbWrite "rendering", RenderEvent.dispatch,
            RenderEvent.dbWrite "failed"], 500))
    ∧ (res = WorkerFetchResult.netError →
        renderPOST true (some v) true res =
          ([RenderEvent.dbWrite "rendering", RenderEvent.dispatch,
            RenderEvent.dbWrite "failed"], 500))
    ∧ (∀ code, res = WorkerFetchResult.http code → respOk code = true →
        renderPOST true (some v) true res =
          ([RenderEvent.dbWrite "rendering", RenderEvent.dispatch], 200)) := by
  have hd : ∀ code, renderPOST true (some v) true (WorkerFetchResult.http code) =
      if respOk code then ([RenderEvent.dbWrite "rendering", RenderEvent.dispatch], 200)
      else ([RenderEvent.dbWrite "rendering", RenderEvent.dispatch,
             RenderEvent.dbWrite "failed"], 500) := by
    intro code
    simp [renderPOST, hsubs]
  have hn : renderPOST true (some v) true WorkerFetchResult.netError =
      ([RenderEvent.dbWrite "rendering", RenderEvent.dispatch,
        RenderEvent.dbWrite "failed"], 500) := by
    simp [renderPOST, hsubs]
  refine ⟨?_, ?_, ?_, ?_, ?_⟩
  · cases res with
    | http code => rw [hd code]; split_ifs <;> rfl
    | netError => rw [hn]; rfl
  · cases res with
    | http code =>
      rw [hd code]; split_ifs <;> simp [List.count_cons]
    | netError => rw [hn]; simp [List.count_cons]
  · intro code hres hcode; subst hres; rw [hd code, if_neg (by simp [hcode])]
  · intro hres; subst hres; exact hn
  · intro code hres hcode; subst hres; rw [hd code, if_pos hcode]

/-- Witness for C1, end-to-end scenario 2: one caption entry, worker
answers HTTP 500 — the handler writes `rendering`, dispatches once, writes
`failed`, answers 500. -/
theorem renderDispatch_spec_witness :
    renderPOST true
      (some ⟨"v1", 60, "ready", [⟨1, 0, 2, "hello"⟩], none, none, none⟩) true
      (WorkerFetchResult.http 500) =
      ([RenderEvent.dbWrite "rendering", RenderEvent.dispatch,
        RenderEvent.dbWrite "failed"], 500) :=
  (renderDispatch_spec ⟨"v1", 60, "ready", [⟨1, 0, 2, "hello"⟩], none, none, none⟩
    (WorkerFetchResult.http 500) (by decide)).2.2.1 500 rfl (by decide)

/-- C2 counterexample: a filmstrip webhook reporting a failed job issues no
database update at all — in particular it does not set the project's
status to `failed`, contrary to the claim's quantification over all three
failure webhooks. -/
theorem filmstripFailedWebhook_counterexample :
    filmstripWebhookPOST ⟨"vid-1", none, none, some "failed", some "boom"⟩ = ([], 500) := by
  decide

/-- C2 amended. A transcription or render webhook with a truthy error field
issues exactly one update, setting only status `failed` (the error detail
is not among the persisted fields); the filmstrip failure webhook issues
no update at all (the error is logged only). -/
theorem failedWebhooks_spec (pt : TranscriptionPayload) (pr : RenderPayload)
    (pf : FilmstripPayload) (ht : pt.error.isSome) (hr : pr.error.isSome)
    (hf : pf.status = some "failed") :
    transcriptionWebhookPOST pt = [⟨pt.videoId, [DbField.status "failed"]⟩]
    ∧ renderWebhookPOST pr = [⟨pr.videoId, [DbField.status "failed"]⟩]
    ∧ filmstripWebhookPOST pf = ([], 500) := by
  refine ⟨?_, ?_, ?_⟩
  · simp [transcriptionWebhookPOST, ht]
  · simp [renderWebhookPOST, hr]
  · simp [filmstripWebhookPOST, hf]

/-- Witness for C2 amended, at concrete failure payloads for all three
webhooks. -/
theorem failedWebhooks_spec_witness :
    transcriptionWebhookPOST ⟨"v1", [], some "failed", some "asr broke"⟩ =
      [⟨"v1", [DbField.status "failed"]⟩]
    ∧ renderWebhookPOST ⟨"v2", none, some "failed", some "ffmpeg broke"⟩ =
      [⟨"v2", [DbField.status "failed"]⟩]
    ∧ filmstripWebhookPOST ⟨"v3", none, none, some "failed", some "boom2"⟩ = ([], 500) :=
  failedWebhooks_spec ⟨"v1", [], some "failed", some "asr broke"⟩
    ⟨"v2", none, some "failed", some "ffmpeg broke"⟩
    ⟨"v3", none, none, some "failed", some "boom2"⟩ rfl rfl rfl

/-- C3. A transcription webhook with status `completed` (no error field)
issues exactly one update that replaces the caption track wholesale with
the payload's list and sets status `ready`: applied to any prior record,
the stored track equals the payload list, every prior entry discarded. -/
theorem transcriptionCompleted_replaces (prior : VideoProjectRec)
    (p : TranscriptionPayload) (hs : p.status = some "completed")
    (he : p.error = none) (hid : p.videoId = prior.id) :
    transcriptionWebhookPOST p =
      [⟨p.videoId, [DbField.subtitles p.subtitles, DbField.status "ready"]⟩]
    ∧ ((transcriptionWebhookPOST p).foldl applyUpdate prior).subtitles = p.subtitles
    ∧ ((transcriptionWebhookPOST p).foldl applyUpdate prior).status = "ready" := by
  have h1 : transcriptionWebhookPOST p =
      [⟨p.videoId, [DbField.subtitles p.subtitles, DbField.status "ready"]⟩] := by
    simp [transcriptionWebhookPOST, he]
  refine ⟨h1, ?_, ?_⟩ <;>
    simp [h1, applyUpdate, hid, applyField]

/-- Witness for C3, end-to-end scenario 3: the prior record holds two
caption entries; the webhook carries the single entry
`{id: 1, start: 0, end: 3.5, text: "Hi"}`; afterwards the stored track is
exactly that single entry and the status is `ready`. -/
theorem transcriptionCompleted_replaces_witness :
    ((transcriptionWebhookPOST
        ⟨"v9", [⟨1, 0, 7/2, "Hi"⟩], some "completed", none⟩).foldl applyUpdate
      ⟨"v9", 120, "transcribing",
        [⟨1, 0, 2, "old a"⟩, ⟨2, 2, 4, "old b"⟩], none, none, none⟩).subtitles =
      [⟨1, 0, 7/2, "Hi"⟩]
    ∧ ((transcriptionWebhookPOST
        ⟨"v9", [⟨1, 0, 7/2, "Hi"⟩], some "completed", none⟩).foldl applyUpdate
      ⟨"v9", 120, "transcribing",
        [⟨1, 0, 2, "old a"⟩, ⟨2, 2, 4, "old b"⟩], none, none, none⟩).status = "ready" :=
  ⟨(transcriptionCompleted_replaces _ _ rfl rfl rfl).2.1,
   (transcriptionCompleted_replaces _ _ rfl rfl rfl).2.2⟩

/-- C4. The four-bucket table of `calculateFrameCount`, its monotonicity,
and that its range is exactly the set 15, 20, 25, 30. -/
theorem calculateFrameCount_spec :
    (∀ d : ℚ,
      (d ≤ 30 → calculateFrameCount d = 15)
      ∧ (30 < d → d ≤ 180 → calculateFrameCount d = 20)
      ∧ (180 < d → d ≤ 600 → calculateFrameCount d = 25)
      ∧ (600 < d → calculateFrameCount d = 30))
    ∧ (∀ d₁ d₂ : ℚ, d₁ ≤ d₂ → calculateFrameCount d₁ ≤ calculateFrameCount d₂)
    ∧ (∀ v : ℕ, (∃ d : ℚ, calculateFrameCount d = v) ↔ v ∈ ({15, 20, 25, 30} : Finset ℕ)) := by
  refine ⟨?_, ?_, ?_⟩
  · intro d
    refine ⟨?_, ?_, ?_, ?_⟩ <;> intros <;> simp only [calculateFrameCount] <;>
      split_ifs <;> first | rfl | linarith
  · intro d₁ d₂ h
    simp only [calculateFrameCount]
    split_ifs <;> first | rfl | omega | linarith
  · intro v
    constructor
    · rintro ⟨d, rfl⟩
      simp only [calculateFrameCount]
      split_ifs <;> simp
    · intro hv
      simp only [Finset.mem_insert, Finset.mem_singleton] at hv
      rcases hv with rfl | rfl | rfl | rfl
      · exact ⟨0, by norm_num [calculateFrameCount]⟩
      · exact ⟨100, by norm_num [calculateFrameCount]⟩
      · exact ⟨300, by norm_num [calculateFrameCount]⟩
      · exact ⟨700, by norm_num [calculateFrameCount]⟩

/-- Witness for C4: a 20-second video gets 15 frames. -/
theorem calculateFrameCount_spec_witness : calculateFrameCount 20 = 15 :=
  (calculateFrameCount_spec.1 20).1 (by norm_num)

/-- C5. The conversion emits the ASS color as an ampersand-H marker, then
the alpha byte `round((1 - o) * 255)`, then blue, green, red channel
bytes, with opacity 1 giving alpha byte 0x00 and opacity 0 giving 0xFF. -/
theorem hexToFFmpegColor_layout (r g b : ℕ) (o : ℚ)
    (hr : r < 256) (hg : g < 256) (hb : b < 256) (ho0 : 0 ≤ o) (ho1 : o ≤ 1) :
    hexToFFmpegColor (mkHexColor r g b) o =
      '&' :: 'H' :: (hex2 (jsRound ((1 - o) * 255)).toNat ++ hex2 b ++ hex2 g ++ hex2 r)
    ∧ (o = 1 → jsRound ((1 - o) * 255) = 0)
    ∧ (o = 0 → jsRound ((1 - o) * 255) = 255) := by
  refine ⟨?_, ?_, ?_⟩
  · have e0 : removeFirstHash (mkHexColor r g b) = hex2 r ++ hex2 g ++ hex2 b := by
      simp [mkHexColor, removeFirstHash]
    simp only [hexToFFmpegColor, e0, hex2, List.cons_append, List.nil_append,
      List.getD_cons_zero, List.getD_cons_succ]
    rw [hexPairVal_hex2 r hr, hexPairVal_hex2 g hg, hexPairVal_hex2 b hb]
  · intro h; subst h; norm_num [jsRound]
  · intro h; subst h; norm_num [jsRound]

/-- Witness for C5 at the color with bytes 255, 0, 68 (hash-FF0044),
opacity one half (alpha byte round(127.5) = 128 = 0x80). -/
theorem hexToFFmpegColor_layout_witness :
    hexToFFmpegColor (mkHexColor 255 0 68) (1/2) =
      '&' :: 'H' :: (hex2 (jsRound ((1 - (1/2 : ℚ)) * 255)).toNat
        ++ hex2 68 ++ hex2 0 ++ hex2 255) :=
  (hexToFFmpegColor_layout 255 0 68 (1/2) (by norm_num) (by norm_num) (by norm_num)
    (by norm_num) (by norm_num)).1

/-- C6. The two modes are mutually exclusive, selected by
`backgroundOpacity > 0`: positive opacity gives BorderStyle 3 with the
converted background color in the OutlineColour channel; zero opacity
gives BorderStyle 1 with the configured outline color in OutlineColour and
the background color in BackColour. -/
theorem renderStyleChannels_spec (s : SubtitleStyleRec) :
    ((renderStyleChannels s).borderStyle = 3 ↔ s.backgroundOpacity > 0)
    ∧ ((renderStyleChannels s).borderStyle = 1 ↔ ¬ s.backgroundOpacity > 0)
    ∧ (s.backgroundOpacity > 0 →
        renderStyleChannels s =
          { outlineColour := hexToFFmpegColor s.backgroundColor s.backgroundOpacity
            backColour := hexToFFmpegColor s.outlineColor 1
            borderStyle := 3 })
    ∧ (s.backgroundOpacity = 0 →
        renderStyleChannels s =
          { outlineColour := hexToFFmpegColor s.outlineColor 1
            backColour := hexToFFmpegColor s.backgroundColor s.backgroundOpacity
            borderStyle := 1 }) := by
  by_cases h : s.backgroundOpacity > 0
  · refine ⟨?_, ?_, ?_, ?_⟩ <;> simp [renderStyleChannels, h] <;> intro h' <;> linarith
  · refine ⟨?_, ?_, ?_, ?_⟩ <;> simp [renderStyleChannels, h]

/-- Witness for C6 at the default style (magenta background, opacity 0.8,
black outline): box mode with the background color in OutlineColour. -/
theorem renderStyleChannels_spec_witness :
    renderStyleChannels ⟨['#','F','F','F','F','0','0'], ['#','F','F','0','0','F','F'],
        8/10, ['#','0','0','0','0','0','0'], 2⟩ =
      { outlineColour := hexToFFmpegColor ['#','F','F','0','0','F','F'] (8/10)
        backColour := hexToFFmpegColor ['#','0','0','0','0','0','0'] 1
        borderStyle := 3 } :=
  (renderStyleChannels_spec _).2.2.1 (by norm_num)

/-- C7 counterexample: the claim's sequence puts 5000 at the sixth
position, but the sixth scheduling interval of the code is
4147.2 × 1.2 = 4976.64, not yet the cap. -/
theorem pollInterval_sixth_not_5000 :
    pollInterval 5 = 497664/100 ∧ pollInterval 5 ≠ 5000 := by
  have h : pollInterval 5 = 497664/100 := by
    norm_num [pollInterval, POLLING_CONFIG]
  exact ⟨h, by rw [h]; norm_num⟩

/-- C7 amended. The scheduling-interval sequence is
2000, 2400, 2880, 3456, 4147.2, 4976.64, 5000, 5000, …; it is
monotonically non-decreasing and bounded above by the 5000 ms cap; and in
the 404 branch the old timer is cancelled and replaced by exactly one new
timer at the updated interval, never left running. -/
theorem pollInterval_sequence_spec :
    (pollInterval 0 = 2000 ∧ pollInterval 1 = 2400 ∧ pollInterval 2 = 2880
      ∧ pollInterval 3 = 3456 ∧ pollInterval 4 = 41472/10 ∧ pollInterval 5 = 497664/100
      ∧ pollInterval 6 = 5000 ∧ pollInterval 7 = 5000)
    ∧ (∀ m n : ℕ, m ≤ n → pollInterval m ≤ pollInterval n)
    ∧ (∀ n : ℕ, pollInterval n ≤ 5000)
    ∧ (∀ (oldId newId : ℕ) (iv cur : ℚ),
        applyTimerEvents [(oldId, iv)] (notReadyReschedule oldId newId cur) =
          [(newId, min (cur * POLLING_CONFIG.BACKOFF_MULTIPLIER) POLLING_CONFIG.MAX_INTERVAL)]) := by
  refine ⟨?_, ?_, ?_, ?_⟩
  · refine ⟨rfl, ?_, ?_, ?_, ?_, ?_, ?_, ?_⟩ <;> norm_num [pollInterval, POLLING_CONFIG]
  · intro m n h
    induction n with
    | zero =>
      have : m = 0 := by omega
      simp [this]
    | succ n ih =>
      rcases Nat.lt_or_ge m (n + 1) with hm | hm
      · exact le_trans (ih (by omega)) (pollInterval_mono n)
      · have : m = n + 1 := by omega
        simp [this]
  · intro n
    simpa [POLLING_CONFIG] using pollInterval_le_max n
  · intro oldId newId iv cur
    simp [notReadyReschedule, applyTimerEvents]

/-- Witness for C7 amended: monotonicity applied at steps 2 ≤ 5. -/
theorem pollInterval_sequence_spec_witness : pollInterval 2 ≤ pollInterval 5 :=
  pollInterval_sequence_spec.2.1 2 5 (by norm_num)

/-- C8 counterexample: if every status response is still in-progress
(status `transcribing`), the editor poller is still live at its 151st
tick, 302000 ms after it started — past the claimed 300000 ms bound. -/
theorem editorPoller_unbounded_counterexample :
    editorPollerActive (fun _ => "transcribing") 150 = true
    ∧ editorTickTime 150 > 300000 := by
  constructor
  · exact editorPollerActive_const "transcribing" (by decide) 150
  · norm_num [editorTickTime]

/-- C8 amended. The filmstrip poller issues no status fetch once elapsed
time exceeds MAX_DURATION (300000 ms) or once the attempt count passes
MAX_RETRIES; the editor status poller has no such bound: with a constant
non-terminal status it is live at every tick. -/
theorem pollerTimeout_spec :
    (∀ (mounted : Bool) (elapsed : ℚ) (resp : FetchResp) (s : FsPoller),
      (checkFilmstripReady mounted elapsed resp s).2 = true →
        elapsed ≤ POLLING_CONFIG.MAX_DURATION ∧ s.attempts + 1 ≤ POLLING_CONFIG.MAX_RETRIES)
    ∧ (∀ st : String, isTerminalStatus st = false →
        ∀ n : ℕ, editorPollerActive (fun _ => st) n = true) := by
  constructor
  · intro mounted elapsed resp s h
    by_cases hm : mounted
    · simp only [checkFilmstripReady, hm, Bool.not_true, Bool.false_eq_true, if_false] at h
      by_cases he : elapsed > POLLING_CONFIG.MAX_DURATION
      · simp [he] at h
      · by_cases ha : s.attempts + 1 > POLLING_CONFIG.MAX_RETRIES
        · simp [he, ha] at h
        · exact ⟨le_of_not_lt he, by omega⟩
    · simp only [Bool.not_eq_true] at hm
      simp [checkFilmstripReady, hm] at h
  · exact editorPollerActive_const

/-- Witness for C8 amended: a fetch issued at 299000 ms elapsed, attempt 1,
is within the bound; and the editor poller with a constant `rendering`
status is live at tick 200. -/
theorem pollerTimeout_spec_witness :
    ((299000 : ℚ) ≤ POLLING_CONFIG.MAX_DURATION ∧ 0 + 1 ≤ POLLING_CONFIG.MAX_RETRIES)
    ∧ editorPollerActive (fun _ => "rendering") 200 = true :=
  ⟨pollerTimeout_spec.1 true 299000 FetchResp.notFound
      ⟨false, 0, 2000⟩ (by norm_num [checkFilmstripReady, POLLING_CONFIG]),
   pollerTimeout_spec.2 "rendering" (by decide) 200⟩

/-- C9 counterexample: the upload-time filmstrip pre-trigger request has no
Authorization header at all, and on such a request the worker's
authentication check takes its failure branch — the branch the claim says
is unreachable for Orchestrator-issued dispatches. -/
theorem uploadDispatch_missing_auth_counterexample :
    getHeader uploadFilmstripDispatchHeaders "Authorization" = none
    ∧ verify_secret (getHeader uploadFilmstripDispatchHeaders "Authorization")
        "s3cret".toList = AuthResult.error 401 "Missing Authorization header" := by
  constructor <;> rfl

/-- C9 amended. The render dispatch and the editor-triggered filmstrip
generation carry the bearer credential in the Authorization header and
pass the worker's verify_secret; the upload-time filmstrip pre-trigger
carries no Authorization header, so the worker's missing-header rejection
branch is reached for that dispatch. (The `noBearerInside` hypothesis
excludes the degenerate case of a secret containing the separator itself,
where the worker's split-based token extraction would reject even a
well-formed header.) -/
theorem dispatchAuth_spec (secret : List Char) (hsec : noBearerInside secret = true) :
    verify_secret (getHeader (renderDispatchHeaders secret) "Authorization") secret =
      AuthResult.ok
    ∧ verify_secret (getHeader (filmstripGenerateDispatchHeaders secret) "Authorization")
        secret = AuthResult.ok
    ∧ getHeader uploadFilmstripDispatchHeaders "Authorization" = none
    ∧ verify_secret (getHeader uploadFilmstripDispatchHeaders "Authorization") secret =
        AuthResult.error 401 "Missing Authorization header" := by
  have hbearer : verify_secret (some (bearerSep ++ secret)) secret = AuthResult.ok := by
    have hsw : startsWithBearer (bearerSep ++ secret) = true := rfl
    simp only [verify_secret, hsw, Bool.not_true, Bool.false_eq_true, if_false,
      pySplitBearer_bearer_append secret hsec]
    simp
  refine ⟨?_, ?_, rfl, rfl⟩
  · have : getHeader (renderDispatchHeaders secret) "Authorization" =
        some (bearerSep ++ secret) := by
      simp [renderDispatchHeaders, getHeader, List.find?, bearerSep]
    rw [this, hbearer]
  · have : getHeader (filmstripGenerateDispatchHeaders secret) "Authorization" =
        some (bearerSep ++ secret) := by
      simp [filmstripGenerateDispatchHeaders, getHeader, List.find?, bearerSep]
    rw [this, hbearer]

/-- Witness for C9 amended at a concrete six-character secret. -/
theorem dispatchAuth_spec_witness :
    verify_secret (getHeader (renderDispatchHeaders "s3cret".toList) "Authorization")
      "s3cret".toList = AuthResult.ok :=
  (dispatchAuth_spec "s3cret".toList (by decide)).1

/-- C10. The upload path persists `detected / 60` while dispatching
`detected`, the generate endpoint forwards the persisted value unchanged,
so the two dispatch points always differ by a factor of 60; for the actual
probed duration (60 s) the adaptive frame-count policy buckets the two
dispatched values differently (20 frames vs 15 frames). -/
theorem durationUnitMismatch_spec (detected : ℚ) :
    (uploadPOSTDurations detected).persistedDuration = detected / 60
    ∧ (uploadPOSTDurations detected).dispatchDuration = detected
    ∧ generateDispatchDuration ((uploadPOSTDurations detected).persistedDuration) =
        detected / 60
    ∧ (uploadPOSTDurations detected).dispatchDuration =
        60 * generateDispatchDuration ((uploadPOSTDurations detected).persistedDuration)
    ∧ calculateFrameCount ((uploadPOSTDurations getVideoDuration).dispatchDuration) = 20
    ∧ calculateFrameCount
        (generateDispatchDuration ((uploadPOSTDurations getVideoDuration).persistedDuration)) = 15 := by
  refine ⟨rfl, rfl, rfl, ?_, ?_, ?_⟩
  · show detected = 60 * (detected / 60)
    ring
  · norm_num [uploadPOSTDurations, getVideoDuration, calculateFrameCount]
  · norm_num [uploadPOSTDurations, generateDispatchDuration, getVideoDuration,
      calculateFrameCount]

end SubPoc
